import Mathlib

set_option linter.unusedVariables false

/-!
Verification of the cluster control core of the jocko broker
(`jocko/leader.go`): membership reconciliation, partition leader failover,
raft peer management, raft bootstrap and the leader loop's read-readiness
discipline.

The Go code is shallowly embedded: each handler becomes a pure function from
its inputs (broker config, FSM state snapshot, an environment recording the
outcomes of the external raft/network operations, and the member being
reconciled) to the updated FSM state, the list of externally visible actions
it performs (proposals, raft membership changes, RPC sends) and a result that
is either a normal return (`ok`/`err`, mirroring Go's `error` returns) or a
runtime panic.
-/

namespace Jocko

/-- Result of a Go function call: a nil error, a non-nil error, or a panic. -/
inductive GoResult
  | ok
  | err (msg : String)
  | panicked (msg : String)
  deriving DecidableEq, Repr

/-- Whether the call ended in a runtime panic. -/
def GoResult.isPanic : GoResult → Bool
  | .panicked _ => true
  | _ => false

/-- `structs.HealthCheck` (health check attached to a registered node). -/
structure HealthCheck where
  node : String
  checkID : String
  name : String
  status : String
  output : String
  deriving DecidableEq, Repr

/-- `structs.Node`: a registered broker record in the FSM.  In the Go code
`Check` is a pointer; at every site modelled here the pointer is non-nil
(both registration sites construct it), matching the spec invariant that
every Node has exactly one membership health check, so it is embedded as a
plain field. -/
structure Node where
  node : Int
  address : String
  meta : List (String × String)
  check : HealthCheck
  deriving DecidableEq, Repr

/-- `structs.Partition`: the replicated partition record.  The source keeps
the duplicate `ID`/`Partition` fields; both are retained. -/
structure Partition where
  topic : String
  id : Int
  partition : Int
  leader : Int
  ar : List Int
  isr : List Int
  deriving DecidableEq, Repr

/-- `protocol.PartitionState`: one entry of a LeaderAndISR request. -/
structure PartitionState where
  topic : String
  partition : Int
  leader : Int
  isr : List Int
  replicas : List Int
  deriving DecidableEq, Repr

/-- `protocol.LeaderAndISRRequest` (the fields the control core sets). -/
structure LeaderAndISRRequest where
  controllerID : Int
  partitionStates : List PartitionState
  deriving DecidableEq, Repr

/-- Health status constants from `structs` (values as in the source tree). -/
def HealthPassing : String := "passing"

/-- Critical health status constant. -/
def HealthCritical : String := "critical"

/-- Well-known check id of the membership-derived health check. -/
def SerfCheckID : String := "serfHealth"

/-- Name of the membership-derived health check. -/
def SerfCheckName : String := "Serf Health Status"

/-- Output recorded for an alive member's check. -/
def SerfCheckAliveOutput : String := "Agent alive and reachable"

/-- Output recorded for a failed member's check. -/
def SerfCheckFailedOutput : String := "Agent not live or unreachable"

/-- Serf member status (`serf.MemberStatus`). -/
inductive MemberStatus
  | statusNone
  | alive
  | leaving
  | left
  | failed
  deriving DecidableEq, Repr

/-- A gossip member: name, lifecycle status and string tags. -/
structure Member where
  name : String
  status : MemberStatus
  tags : List (String × String)
  deriving DecidableEq, Repr

/-- `metadata.Broker`: broker metadata derived from a member's tags. -/
structure BrokerMeta where
  id : Int
  name : String
  brokerAddr : String
  raftAddr : String
  serfLANAddr : String
  bootstrap : Bool
  nonVoter : Bool
  deriving DecidableEq, Repr

/-- Look a key up in a tag list. -/
def findTag (tags : List (String × String)) (k : String) : Option String :=
  (tags.find? (fun p => p.1 = k)).map Prod.snd

/-- Tag lookup with the Go map default (empty string when absent). -/
def tagOr (tags : List (String × String)) (k : String) : String :=
  (findTag tags k).getD ""

/-- Parse a decimal string as a signed 32-bit integer (result in range). -/
def parseInt32 (s : String) : Option Int :=
  let chars := s.data
  let signed : Bool × List Char :=
    match chars with
    | '-' :: rest => (true, rest)
    | _ => (false, chars)
  if signed.2 = [] then none
  else if signed.2.all Char.isDigit then
    let n : Nat := signed.2.foldl (fun acc c => acc * 10 + (c.toNat - 48)) 0
    let v : Int := if signed.1 then -(n : Int) else (n : Int)
    if -(2 ^ 31) ≤ v ∧ v < 2 ^ 31 then some v else none
  else none

/-- Modelled from the spec: `metadata.IsBroker` is not under `src/`; per the
spec a member is a broker iff its tags include `id` (parseable as int32),
`raft_addr`, `serf_lan_addr` and `broker_addr`, with optional tags
`bootstrap` and `non_voter` (presence meaning the flag is set).  When the
member is not a broker the Go function returns a nil `*metadata.Broker`,
embedded here as `none`. -/
def IsBroker (m : Member) : Option BrokerMeta :=
  match findTag m.tags "id", findTag m.tags "raft_addr",
        findTag m.tags "serf_lan_addr", findTag m.tags "broker_addr" with
  | some idStr, some raftAddr, some serfLANAddr, some brokerAddr =>
    match parseInt32 idStr with
    | some id =>
      some { id := id, name := m.name, brokerAddr := brokerAddr,
             raftAddr := raftAddr, serfLANAddr := serfLANAddr,
             bootstrap := (findTag m.tags "bootstrap").isSome,
             nonVoter := (findTag m.tags "non_voter").isSome }
    | none => none
  | _, _, _, _ => none

/-- The FSM's store: registered nodes and partitions. -/
structure FSMState where
  nodes : List Node
  partitions : List Partition
  deriving DecidableEq, Repr

/-- `state.GetNode(id)`: first node record with the given id. -/
def getNode (st : FSMState) (id : Int) : Option Node :=
  st.nodes.find? (fun n => n.node = id)

/-- `state.PartitionsByLeader(id)`: partitions whose leader is `id`. -/
def partitionsByLeader (st : FSMState) (id : Int) : List Partition :=
  st.partitions.filter (fun p => p.leader = id)

/-- Modelled from the spec: the FSM's application of a `RegisterNode`
proposal (the FSM package is not under `src/`).  Per the spec, a node record
is created when first observed and its status (check) is mutated by
subsequent `RegisterNode` proposals. -/
def applyRegisterNode (st : FSMState) (n : Node) : FSMState :=
  if st.nodes.any (fun x => x.node = n.node) then
    { st with nodes := st.nodes.map (fun x => if x.node = n.node then { x with check := n.check } else x) }
  else
    { st with nodes := st.nodes ++ [n] }

/-- Modelled from the spec: the FSM's application of a `DeregisterNode`
proposal destroys the node record. -/
def applyDeregisterNode (st : FSMState) (id : Int) : FSMState :=
  { st with nodes := st.nodes.filter (fun x => x.node ≠ id) }

/-- Modelled from the spec: the FSM's application of a `RegisterPartition`
proposal upserts the record keyed by `(Topic, PartitionID)`. -/
def applyRegisterPartition (st : FSMState) (p : Partition) : FSMState :=
  if st.partitions.any (fun q => q.topic = p.topic && q.partition = p.partition) then
    let repl := fun (q : Partition) => if q.topic = p.topic && q.partition = p.partition then p else q
    { st with partitions := st.partitions.map repl }
  else
    { st with partitions := st.partitions ++ [p] }

/-- The broker-level configuration fields the control core reads. -/
structure Config where
  id : Int
  nodeName : String
  bootstrap : Bool
  devMode : Bool
  deriving DecidableEq, Repr

/-- Environment recording the outcomes of the external raft engine and of
the network, so the handlers are pure functions of it:
`servers` is the current raft configuration (server ids), `getConfigOk`
whether `GetConfiguration` succeeds, `applyOk k` whether the `k`-th
`raft.Apply` issued by the handler call succeeds, `addOk` whether
`AddVoter`/`AddNonvoter` succeeds, `removeOk k` whether the `k`-th
`RemoveServer` succeeds, `netOk i` whether dialing broker `i` succeeds, and
`brokerByID` the broker lookup index (broker id to address). -/
structure RaftEnv where
  servers : List Int
  getConfigOk : Bool
  applyOk : Nat → Bool
  addOk : Bool
  removeOk : Nat → Bool
  netOk : Int → Bool
  brokerByID : Int → Option String

/-- Externally visible actions of the control core: log proposals, raft
membership changes and peer RPCs. -/
inductive Action
  | registerNode (n : Node)
  | deregisterNode (id : Int)
  | registerPartition (p : Partition)
  | removeServer (id : Int)
  | addVoter (id : Int) (addr : String)
  | addNonvoter (id : Int) (addr : String)
  | sendLeaderAndISR (destID : Int) (destAddr : String) (req : LeaderAndISRRequest)
  deriving DecidableEq, Repr

/-- `joinCluster` (leader.go 329-370).  If the joining member declares
bootstrap and some other broker member also does, log and return nil.  Then
get the raft configuration; skip self-join while the cluster has fewer than
three servers; otherwise add the peer as non-voter or voter. -/
def joinCluster (cfg : Config) (env : RaftEnv) (lanMembers : List Member)
    (m : Member) (parts : BrokerMeta) : List Action × GoResult :=
  if parts.bootstrap &&
      lanMembers.any (fun mem =>
        match IsBroker mem with
        | some p => mem.name ≠ m.name && p.bootstrap
        | none => false) then
    ([], .ok)
  else if !env.getConfigOk then
    ([], .err "failed to get raft configuration")
  else if m.name = cfg.nodeName && env.servers.length < 3 then
    ([], .ok)
  else if parts.nonVoter then
    ([Action.addNonvoter parts.id parts.raftAddr],
      if env.addOk then .ok else .err "failed to add raft peer")
  else
    ([Action.addVoter parts.id parts.raftAddr],
      if env.addOk then .ok else .err "failed to add raft peer")

/-- The `RegisterNodeRequest` node built for an alive broker member
(leader.go 258-275). -/
def aliveNodeReq (b : BrokerMeta) : Node :=
  { node := b.id, address := b.brokerAddr,
    meta := [("raft_addr", b.raftAddr), ("serf_lan_addr", b.serfLANAddr), ("name", b.name)],
    check := { node := toString b.id, checkID := SerfCheckID, name := SerfCheckName,
               status := HealthPassing, output := SerfCheckAliveOutput } }

/-- `handleAliveMember` (leader.go 241-278).  When the member is a broker,
join it to the cluster, then register it as a node unless a record already
exists.  When the member is not a broker, the Go code still evaluates
`b.ID.Int32()` on the nil pointer returned by `metadata.IsBroker`, which is
a runtime panic. -/
def handleAliveMember (cfg : Config) (env : RaftEnv) (st : FSMState)
    (lanMembers : List Member) (m : Member) : FSMState × List Action × GoResult :=
  match IsBroker m with
  | some b =>
    let join := joinCluster cfg env lanMembers m b
    match join.2 with
    | .ok =>
      match getNode st b.id with
      | some _ => (st, join.1, .ok)
      | none =>
        let n := aliveNodeReq b
        if env.applyOk 0 then
          (applyRegisterNode st n, join.1 ++ [Action.registerNode n], .ok)
        else
          (st, join.1 ++ [Action.registerNode n], .err "apply failed")
    | e => (st, join.1, e)
  | none =>
    (st, [], .panicked "invalid memory address or nil pointer dereference")

/-- The inner loop of `removeServer` (leader.go 498-505): one
`RemoveServer(meta.ID)` call per server in the configuration, aborting on
the first failed call. -/
def removeServerLoop (env : RaftEnv) (id : Int) : Nat → List Int → List Action × GoResult
  | _, [] => ([], .ok)
  | k, _ :: rest =>
    if env.removeOk k then
      let r := removeServerLoop env id (k + 1) rest
      (Action.removeServer id :: r.1, r.2)
    else
      ([Action.removeServer id], .err "failed to remove server")

/-- `removeServer` (leader.go 492-507). -/
def removeServer (env : RaftEnv) (m : Member) (meta : BrokerMeta) : List Action × GoResult :=
  if !env.getConfigOk then ([], .err "failed to get raft configuration")
  else removeServerLoop env meta.id 0 env.servers

/-- `handleDeregisterMember` (leader.go 297-327): skip non-brokers and this
node itself; otherwise remove the member's server and, when a node record
exists, propose `DeregisterNode`. -/
def handleDeregisterMember (cfg : Config) (env : RaftEnv) (st : FSMState)
    (reason : String) (m : Member) : FSMState × List Action × GoResult :=
  match IsBroker m with
  | none => (st, [], .ok)
  | some meta =>
    if meta.id = cfg.id then (st, [], .ok)
    else
      let rem := removeServer env m meta
      match rem.2 with
      | .ok =>
        match getNode st meta.id with
        | none => (st, rem.1, .ok)
        | some _ =>
          if env.applyOk 0 then
            (applyDeregisterNode st meta.id, rem.1 ++ [Action.deregisterNode meta.id], .ok)
          else
            (st, rem.1 ++ [Action.deregisterNode meta.id], .err "apply failed")
      | e => (st, rem.1, e)

/-- `handleLeftMember` (leader.go 292-294). -/
def handleLeftMember (cfg : Config) (env : RaftEnv) (st : FSMState)
    (m : Member) : FSMState × List Action × GoResult :=
  handleDeregisterMember cfg env st "left" m

/-- The passing set built in `handleFailedMember` (leader.go 415-420):
nodes with a passing health check, excluding the failed broker's id. -/
def passingNodes (nodes : List Node) (failedID : Int) : List Node :=
  nodes.filter (fun n => n.check.status = HealthPassing && n.node ≠ failedID)

/-- The critical-health `RegisterNode` node built for a failed member
(leader.go 378-389).  The check's `Node` field is set from the member's
`raft_addr` tag, exactly as in the source. -/
def failedNodeReq (meta : BrokerMeta) (m : Member) : Node :=
  { node := meta.id, address := "", meta := [],
    check := { node := tagOr m.tags "raft_addr", checkID := SerfCheckID,
               name := SerfCheckName, status := HealthCritical,
               output := SerfCheckFailedOutput } }

/-- The partition loop of `handleFailedMember` (leader.go 427-471).  For the
`i`-th affected partition: `rand.Intn(len(passing))` picks the new leader
(`rand.Intn` panics when its argument is zero, i.e. when the passing set is
empty); the failed id is filtered out of AR and ISR preserving order; a
`RegisterPartition` is proposed; and a `PartitionState` carrying the
partition's old `Leader`/`ISR`/`AR` fields is appended for the outgoing
LeaderAndISR request.  `choose i` stands for the `i`-th random draw (taken
modulo the passing-set size). -/
def failoverAssign (env : RaftEnv) (failedID : Int) (passing : List Node)
    (choose : Nat → Nat) :
    Nat → FSMState → List Partition → FSMState × List Action × List PartitionState × GoResult
  | _, st, [] => (st, [], [], .ok)
  | i, st, p :: ps =>
    if h : passing.length = 0 then
      (st, [], [], .panicked "invalid argument to Intn")
    else
      let node := passing.get ⟨choose i % passing.length, Nat.mod_lt _ (Nat.pos_of_ne_zero h)⟩
      let ar := p.ar.filter (fun r => r ≠ failedID)
      let isr := p.isr.filter (fun r => r ≠ failedID)
      let newp : Partition :=
        { topic := p.topic, id := p.partition, partition := p.partition,
          leader := node.node, ar := ar, isr := isr }
      if env.applyOk (i + 1) then
        let ps_entry : PartitionState :=
          { topic := p.topic, partition := p.partition,
            leader := p.leader, isr := p.isr, replicas := p.ar }
        let rest := failoverAssign env failedID passing choose (i + 1) (applyRegisterPartition st newp) ps
        (rest.1, Action.registerPartition newp :: rest.2.1, ps_entry :: rest.2.2.1, rest.2.2.2)
      else
        (st, [Action.registerPartition newp], [], .err "apply failed")

/-- The broadcast loop of `handleFailedMember` (leader.go 474-487): look
each passing node up in the broker index (panicking when absent, as the
source does), dial it and send the assembled request, aborting on a
dial/RPC error. -/
def failoverBroadcast (env : RaftEnv) (req : LeaderAndISRRequest) :
    List Node → List Action × GoResult
  | [] => ([], .ok)
  | n :: ns =>
    match env.brokerByID n.node with
    | none => ([], .panicked "trying to assign partitions to unknown broker")
    | some addr =>
      if env.netOk n.node then
        let rest := failoverBroadcast env req ns
        (Action.sendLeaderAndISR n.node addr req :: rest.1, rest.2)
      else
        ([], .err "dial failed")

/-- `handleFailedMember` (leader.go 372-490): register the member with a
critical check, then reassign every partition it led to a random passing
node and broadcast the collected partition states to the passing set.  The
FSM snapshot is read after the critical registration commits, so the
snapshot used for the reassignment is `applyRegisterNode st (failedNodeReq
meta m)`.  The source's `GetPartitions()` call whose result is discarded
(leader.go 399-402) is pure here and cannot produce the error it panics
on. -/
def handleFailedMember (cfg : Config) (env : RaftEnv) (st : FSMState)
    (m : Member) (choose : Nat → Nat) : FSMState × List Action × GoResult :=
  match IsBroker m with
  | none => (st, [], .ok)
  | some meta =>
    let critNode := failedNodeReq meta m
    if env.applyOk 0 then
      let st1 := applyRegisterNode st critNode
      let parts := partitionsByLeader st1 meta.id
      let passing := passingNodes st1.nodes meta.id
      let assigned := failoverAssign env meta.id passing choose 0 st1 parts
      match assigned.2.2.2 with
      | .ok =>
        let req : LeaderAndISRRequest :=
          { controllerID := cfg.id, partitionStates := assigned.2.2.1 }
        let sent := failoverBroadcast env req passing
        (assigned.1, Action.registerNode critNode :: assigned.2.1 ++ sent.1, sent.2)
      | r => (assigned.1, Action.registerNode critNode :: assigned.2.1, r)
    else
      (st, [Action.registerNode critNode], .err "apply failed")

/-- The status dispatch inside `reconcileMember` (leader.go 227-234). -/
def statusHandler (cfg : Config) (env : RaftEnv) (lanMembers : List Member)
    (choose : Nat → Nat) (st : FSMState) (m : Member) : FSMState × List Action × GoResult :=
  match m.status with
  | .alive => handleAliveMember cfg env st lanMembers m
  | .failed => handleFailedMember cfg env st m choose
  | .left => handleLeftMember cfg env st m
  | _ => (st, [], .ok)

/-- `reconcileMember` (leader.go 225-239): dispatch on the member status and
swallow (log only) any error the handler returns; a runtime panic, by
contrast, propagates. -/
def reconcileMember (cfg : Config) (env : RaftEnv) (lanMembers : List Member)
    (choose : Nat → Nat) (st : FSMState) (m : Member) : FSMState × List Action × GoResult :=
  let r := statusHandler cfg env lanMembers choose st m
  match r.2.2 with
  | .panicked s => (r.1, r.2.1, .panicked s)
  | _ => (r.1, r.2.1, .ok)

/-- `reconcile` (leader.go 215-223) over the remaining members: run
`reconcileMember` on each LAN member in order, returning its error if it is
non-nil (a branch that is in fact dead, since `reconcileMember` always
returns nil); `envAt k`/`chooseAt k` give the environment seen by the `k`-th
member's handler.  Returns the per-member action traces in order. -/
def reconcileFrom (cfg : Config) (envAt : Nat → RaftEnv) (chooseAt : Nat → Nat → Nat)
    (lanMembers : List Member) :
    Nat → FSMState → List Member → FSMState × List (Member × List Action) × GoResult
  | _, st, [] => (st, [], .ok)
  | k, st, m :: ms =>
    let r := reconcileMember cfg (envAt k) lanMembers (chooseAt k) st m
    match r.2.2 with
    | .ok =>
      let rest := reconcileFrom cfg envAt chooseAt lanMembers (k + 1) r.1 ms
      (rest.1, (m, r.2.1) :: rest.2.1, rest.2.2)
    | e => (r.1, [(m, r.2.1)], e)

/-- `reconcile` (leader.go 215-223): iterate over all LAN members. -/
def reconcile (cfg : Config) (envAt : Nat → RaftEnv) (chooseAt : Nat → Nat → Nat)
    (lanMembers : List Member) (st : FSMState) :
    FSMState × List (Member × List Action) × GoResult :=
  reconcileFrom cfg envAt chooseAt lanMembers 0 st lanMembers

/-- Raft setup actions of `setupRaft` observable from outside. -/
inductive SetupAct
  | bootstrapCluster (servers : List (Int × String))
  | newRaft
  deriving DecidableEq, Repr

/-- The bootstrap decision of `setupRaft` (leader.go 87-106): when
`Bootstrap` or `DevMode` is set and `raft.HasExistingState` reports no prior
state, submit a single-server initial configuration containing only this
node, then construct the raft instance. -/
def setupRaft (cfg : Config) (hasExistingState : Bool) (localAddr : String) : List SetupAct :=
  (if (cfg.bootstrap || cfg.devMode) && !hasExistingState then
      [SetupAct.bootstrapCluster [(cfg.id, localAddr)]]
    else [])
  ++ [SetupAct.newRaft]

/-- `barrierWriteTimeout` (leader.go 20-22), in seconds. -/
def barrierWriteTimeout : Nat := 120

/-- One event observed by the WAIT select of the leader loop
(leader.go 200-212): the stop channel, the global shutdown channel, the
reconcile-interval tick, or a member arriving on the reconcile channel. -/
inductive WaitEv
  | stop
  | shutdown
  | tick
  | memberEv
  deriving DecidableEq, Repr

/-- Observable actions of one leader-loop execution:
`barrierDone t ok` records a `Barrier` call with timeout `t` returning
success or failure, `setReady`/`resetReady` the writes to
`consistentReadReady` done by `establishLeadership` (leader.go 161-164) and
`revokeLeadership` (leader.go 156-159), `reconcileAll` a full `reconcile()`
and `reconcileOne` a single-member reconcile from the channel. -/
inductive LoopAct
  | barrierDone (timeoutSecs : Nat) (ok : Bool)
  | setReady
  | resetReady
  | reconcileAll
  | reconcileOne
  deriving DecidableEq, Repr

/-- External outcomes driving one leader-loop execution: `barrier k` is the
result of the `k`-th `Barrier` call, `reconcileRes k` the success of the
`k`-th full `reconcile()` (always true for the code as written, since
`reconcileMember` never returns an error, but the loop checks it). -/
structure LoopInput where
  barrier : Nat → Bool
  reconcileRes : Nat → Bool

/-- One RECONCILE pass of the leader loop (leader.go 171-198):
call `Barrier(barrierWriteTimeout)`; on failure go to WAIT (leaving
`establishedLeader` and the nil reconcile channel as they are).  On success,
establish leadership once per loop entry (`establishLeadership` always
returns nil, so this always sets the ready flag the first time), then run
the full reconcile; the reconcile channel is re-armed (members can be
received in WAIT) only when reconcile succeeded.  Returns the emitted
actions, the new `establishedLeader`, and whether the reconcile channel is
armed. -/
def reconcilePass (inp : LoopInput) (established : Bool) (k : Nat) :
    List LoopAct × Bool × Bool :=
  if inp.barrier k then
    (LoopAct.barrierDone barrierWriteTimeout true ::
        (if established then [] else [LoopAct.setReady]) ++ [LoopAct.reconcileAll],
      true, inp.reconcileRes k)
  else
    ([LoopAct.barrierDone barrierWriteTimeout false], established, false)

/-- The WAIT phase of the leader loop (leader.go 200-212) driven by the list
of select outcomes: stop or shutdown exits the loop, running the deferred
`revokeLeadership` (which resets the ready flag) iff leadership was
established; a tick jumps back to RECONCILE; a member event runs a
single-member reconcile when the reconcile channel is armed (when it is nil
the select cannot pick that case, modelled as the event being ignored).
Returns the emitted actions and whether the loop exited (an exhausted event
list leaves the loop blocked in the select, not exited). -/
def waitLoop (inp : LoopInput) :
    Bool → Bool → Nat → List WaitEv → List LoopAct × Bool
  | _, _, _, [] => ([], false)
  | established, canMember, k, ev :: rest =>
    match ev with
    | .stop => ((if established then [LoopAct.resetReady] else []), true)
    | .shutdown => ((if established then [LoopAct.resetReady] else []), true)
    | .tick =>
      let pass := reconcilePass inp established (k + 1)
      let cont := waitLoop inp pass.2.1 pass.2.2 (k + 1) rest
      (pass.1 ++ cont.1, cont.2)
    | .memberEv =>
      let cont := waitLoop inp established canMember k rest
      ((if canMember then LoopAct.reconcileOne :: cont.1 else cont.1), cont.2)

/-- `leaderLoop` (leader.go 167-213): entered once per leadership
acquisition with `establishedLeader = false`; an initial RECONCILE pass then
the WAIT select loop. -/
def leaderLoop (inp : LoopInput) (waits : List WaitEv) : List LoopAct × Bool :=
  let pass := reconcilePass inp false 0
  let cont := waitLoop inp pass.2.1 pass.2.2 0 waits
  (pass.1 ++ cont.1, cont.2)

/-- `true` iff every `setReady` in the action list is immediately preceded
by a successful barrier with the 2-minute write timeout; `prev` is the
action immediately before the list (none at the start of the trace). -/
def readySetAfterBarrier : Option LoopAct → List LoopAct → Bool
  | _, [] => true
  | prev, a :: rest =>
    (decide (a ≠ LoopAct.setReady) ||
      decide (prev = some (LoopAct.barrierDone barrierWriteTimeout true))) &&
    readySetAfterBarrier (some a) rest

/-! ### Helper lemmas -/

theorem joinCluster_no_panic (cfg : Config) (env : RaftEnv) (lan : List Member)
    (m : Member) (parts : BrokerMeta) :
    (joinCluster cfg env lan m parts).2.isPanic = false := by
  unfold joinCluster
  repeat' split
  all_goals simp [GoResult.isPanic]

theorem removeServerLoop_actions (env : RaftEnv) (id : Int) :
    ∀ l k, ∀ a ∈ (removeServerLoop env id k l).1, a = Action.removeServer id := by
  intro l
  induction l with
  | nil => intro k a ha; simp [removeServerLoop] at ha
  | cons x rest ih =>
    intro k a ha
    unfold removeServerLoop at ha
    by_cases h : env.removeOk k
    · simp only [h, if_true] at ha
      rcases List.mem_cons.mp ha with h1 | h2
      · exact h1
      · exact ih (k + 1) a h2
    · simp only [h, if_false] at ha
      simpa using ha

theorem removeServerLoop_all_ok (env : RaftEnv) (id : Int)
    (hok : ∀ k, env.removeOk k = true) :
    ∀ l k, removeServerLoop env id k l =
      (List.replicate l.length (Action.removeServer id), .ok) := by
  intro l
  induction l with
  | nil => intro k; rfl
  | cons x rest ih =>
    intro k
    simp [removeServerLoop, hok k, ih (k + 1), List.replicate]

theorem removeServer_all_ok (env : RaftEnv) (m : Member) (meta : BrokerMeta)
    (hcfg : env.getConfigOk = true) (hok : ∀ k, env.removeOk k = true) :
    removeServer env m meta =
      (List.replicate env.servers.length (Action.removeServer meta.id), .ok) := by
  simp [removeServer, hcfg, removeServerLoop_all_ok env meta.id hok]

/-! ### C6: raft bootstrap condition -/

/-- C6 counterexample: with `Bootstrap` unset but `DevMode` set and no prior
state, `setupRaft` still submits the single-server initial configuration,
refuting the claim that bootstrapping happens only when the Bootstrap flag
is set. -/
theorem setupRaft_devmode_cex :
    SetupAct.bootstrapCluster [((1 : Int), "a")] ∈
        setupRaft { id := 1, nodeName := "n", bootstrap := false, devMode := true } false "a" ∧
      Config.bootstrap { id := 1, nodeName := "n", bootstrap := false, devMode := true } = false := by
  decide

/-- C6 (amended): the single-server initial configuration containing only
this node is submitted if and only if (the Bootstrap flag is set or DevMode
is set) and no prior raft state exists on start. -/
theorem setupRaft_bootstrap_iff (cfg : Config) (hasState : Bool) (addr : String) :
    (SetupAct.bootstrapCluster [(cfg.id, addr)] ∈ setupRaft cfg hasState addr) ↔
      ((cfg.bootstrap || cfg.devMode) = true ∧ hasState = false) := by
  unfold setupRaft
  by_cases hb : (cfg.bootstrap || cfg.devMode) = true <;> by_cases hs : hasState <;>
    simp [hb, hs]

/-! ### C10: removeServer only targets the departing member -/

/-- C10: `removeServer` only ever issues RemoveServer calls for the
departing member's own id; when `GetConfiguration` and every call succeed it
issues exactly one call per server in the configuration (hence zero when
the configuration is empty). -/
theorem removeServer_only_target (env : RaftEnv) (m : Member) (meta : BrokerMeta) :
    (∀ a ∈ (removeServer env m meta).1, a = Action.removeServer meta.id) ∧
      (env.getConfigOk = true → (∀ k, env.removeOk k = true) →
        (removeServer env m meta).1 =
          List.replicate env.servers.length (Action.removeServer meta.id)) := by
  constructor
  · intro a ha
    unfold removeServer at ha
    by_cases h : env.getConfigOk
    · simp only [h] at ha
      simp at ha
      exact removeServerLoop_actions env meta.id env.servers 0 a ha
    · simp [h] at ha
  · intro hcfg hok
    rw [removeServer_all_ok env m meta hcfg hok]

/-- C10 witness at a two-server configuration and departing broker id 7. -/
theorem removeServer_only_target_witness :
    (removeServer
        { servers := [3, 9], getConfigOk := true, applyOk := fun _ => true,
          addOk := true, removeOk := fun _ => true, netOk := fun _ => true,
          brokerByID := fun _ => none }
        { name := "b7", status := .left, tags := [] }
        { id := 7, name := "b7", brokerAddr := "a", raftAddr := "r",
          serfLANAddr := "s", bootstrap := false, nonVoter := false }).1 =
      List.replicate 2 (Action.removeServer 7) :=
  (removeServer_only_target _ _ _).2 rfl (fun _ => rfl)

/-! ### C9: dual bootstrap misconfiguration -/

/-- C9: when the joining member declares Bootstrap and some other broker
member (different name) also declares Bootstrap, `joinCluster` returns
without error having issued no action at all — in particular neither
AddVoter nor AddNonvoter — and without panicking. -/
theorem joinCluster_dual_bootstrap (cfg : Config) (env : RaftEnv)
    (lan : List Member) (m : Member) (parts : BrokerMeta)
    (_hm : IsBroker m = some parts)
    (hb : parts.bootstrap = true)
    (hother : ∃ mem ∈ lan, ∃ p, IsBroker mem = some p ∧ mem.name ≠ m.name ∧ p.bootstrap = true) :
    joinCluster cfg env lan m parts = ([], .ok) := by
  have hany : (lan.any (fun mem =>
      match IsBroker mem with
      | some p => mem.name ≠ m.name && p.bootstrap
      | none => false)) = true := by
    rcases hother with ⟨mem, hmem, p, hp, hne, hpb⟩
    apply List.any_eq_true.mpr
    refine ⟨mem, hmem, ?_⟩
    simp [hp, hne, hpb]
  unfold joinCluster
  rw [hb]
  simp only [Bool.true_and]
  rw [hany]
  simp

/-- C9 witness: two broker members both carrying the `bootstrap` tag. -/
theorem joinCluster_dual_bootstrap_witness :
    joinCluster { id := 1, nodeName := "a", bootstrap := true, devMode := false }
      { servers := [], getConfigOk := true, applyOk := fun _ => true, addOk := true,
        removeOk := fun _ => true, netOk := fun _ => true, brokerByID := fun _ => none }
      [ { name := "a", status := .alive,
          tags := [("id","1"),("raft_addr","r1"),("serf_lan_addr","s1"),("broker_addr","a1"),("bootstrap","")] },
        { name := "b", status := .alive,
          tags := [("id","2"),("raft_addr","r2"),("serf_lan_addr","s2"),("broker_addr","a2"),("bootstrap","")] } ]
      { name := "a", status := .alive,
        tags := [("id","1"),("raft_addr","r1"),("serf_lan_addr","s1"),("broker_addr","a1"),("bootstrap","")] }
      { id := 1, name := "a", brokerAddr := "a1", raftAddr := "r1",
        serfLANAddr := "s1", bootstrap := true, nonVoter := false } =
      ([], .ok) :=
  joinCluster_dual_bootstrap _ _ _ _ _ (by decide) rfl
    ⟨{ name := "b", status := .alive,
       tags := [("id","2"),("raft_addr","r2"),("serf_lan_addr","s2"),("broker_addr","a2"),("bootstrap","")] },
      by decide,
      { id := 2, name := "b", brokerAddr := "a2", raftAddr := "r2",
        serfLANAddr := "s2", bootstrap := true, nonVoter := false },
      by decide, by decide, rfl⟩

/-! ### C8: left members -/

/-- C8: for a member with status left: non-brokers are ignored; this node
itself is ignored; otherwise the member's server is removed from the
consensus configuration via RemoveServer calls (at least one, when the
configuration is non-empty and the raft operations succeed) and a
`DeregisterNode` for the member's id is proposed if and only if a node
record for it exists in the FSM. -/
theorem handleLeftMember_spec (cfg : Config) (env : RaftEnv) (st : FSMState) (m : Member) :
    (IsBroker m = none → handleLeftMember cfg env st m = (st, [], .ok)) ∧
    (∀ meta, IsBroker m = some meta → meta.id = cfg.id →
        handleLeftMember cfg env st m = (st, [], .ok)) ∧
    (∀ meta, IsBroker m = some meta → meta.id ≠ cfg.id →
        env.getConfigOk = true → (∀ k, env.removeOk k = true) → env.servers ≠ [] →
        (Action.removeServer meta.id ∈ (handleLeftMember cfg env st m).2.1 ∧
          ((Action.deregisterNode meta.id ∈ (handleLeftMember cfg env st m).2.1) ↔
            getNode st meta.id ≠ none))) := by
  refine ⟨?_, ?_, ?_⟩
  · intro hm
    unfold handleLeftMember handleDeregisterMember
    rw [hm]
  · intro meta hm hid
    unfold handleLeftMember handleDeregisterMember
    rw [hm]
    simp [hid]
  · intro meta hm hid hcfg hok hne
    unfold handleLeftMember handleDeregisterMember
    rw [hm]
    simp only [hid, if_false]
    rw [removeServer_all_ok env m meta hcfg hok]
    have hlen : 0 < env.servers.length := List.length_pos.mpr hne
    have hmemrep : Action.removeServer meta.id ∈
        List.replicate env.servers.length (Action.removeServer meta.id) :=
      List.mem_replicate.mpr ⟨Nat.pos_iff_ne_zero.mp hlen, rfl⟩
    cases hg : getNode st meta.id with
    | none => simp [hmemrep]
    | some nd =>
      by_cases ha : env.applyOk 0 <;> simp [ha, hmemrep]

/-- C8 witness: a two-server configuration, a departing broker with id 2
distinct from this node (id 1), and an FSM that holds a node record for
id 2: RemoveServer 2 is issued and DeregisterNode 2 is proposed. -/
theorem handleLeftMember_spec_witness :
    Action.removeServer 2 ∈
        (handleLeftMember { id := 1, nodeName := "b1", bootstrap := false, devMode := false }
          { servers := [1, 2], getConfigOk := true, applyOk := fun _ => true, addOk := true,
            removeOk := fun _ => true, netOk := fun _ => true, brokerByID := fun _ => none }
          { nodes := [{ node := 2, address := "a2", meta := [],
                        check := { node := "2", checkID := "c", name := "n",
                                   status := "passing", output := "" } }],
            partitions := [] }
          { name := "b2", status := .left,
            tags := [("id","2"),("raft_addr","r2"),("serf_lan_addr","s2"),("broker_addr","a2")] }).2.1 ∧
      ((Action.deregisterNode 2 ∈
          (handleLeftMember { id := 1, nodeName := "b1", bootstrap := false, devMode := false }
            { servers := [1, 2], getConfigOk := true, applyOk := fun _ => true, addOk := true,
              removeOk := fun _ => true, netOk := fun _ => true, brokerByID := fun _ => none }
            { nodes := [{ node := 2, address := "a2", meta := [],
                          check := { node := "2", checkID := "c", name := "n",
                                     status := "passing", output := "" } }],
              partitions := [] }
            { name := "b2", status := .left,
              tags := [("id","2"),("raft_addr","r2"),("serf_lan_addr","s2"),("broker_addr","a2")] }).2.1) ↔
        getNode { nodes := [{ node := 2, address := "a2", meta := [],
                              check := { node := "2", checkID := "c", name := "n",
                                         status := "passing", output := "" } }],
                  partitions := [] } 2 ≠ none) :=
  (handleLeftMember_spec _ _ _ _).2.2
    { id := 2, name := "b2", brokerAddr := "a2", raftAddr := "r2",
      serfLANAddr := "s2", bootstrap := false, nonVoter := false }
    (by decide) (by decide) rfl (fun _ => rfl) (by decide)

/-! ### Failover lemmas -/

theorem applyRegisterNode_partitions (st : FSMState) (n : Node) :
    (applyRegisterNode st n).partitions = st.partitions := by
  unfold applyRegisterNode
  split <;> rfl

theorem partitionsByLeader_applyRegisterNode (st : FSMState) (n : Node) (id : Int) :
    partitionsByLeader (applyRegisterNode st n) id = partitionsByLeader st id := by
  unfold partitionsByLeader
  rw [applyRegisterNode_partitions]

theorem passingNodes_map_set (l : List Node) (n : Node) (fid : Int) (h : n.node = fid) :
    passingNodes (l.map (fun x => if x.node = n.node then { x with check := n.check } else x)) fid
      = passingNodes l fid := by
  induction l with
  | nil => rfl
  | cons x rest ih =>
    simp only [List.map_cons, passingNodes, List.filter_cons] at ih ⊢
    by_cases hx : x.node = n.node
    · have hxf : x.node = fid := by rw [hx, h]
      have e1 : (if x.node = n.node then { x with check := n.check } else x) =
          { x with check := n.check } := if_pos hx
      rw [e1]
      have e2 : (decide (({ x with check := n.check } : Node).node ≠ fid)) = false := by
        simp [hxf]
      rw [e2]
      simpa using ih
    · have e1 : (if x.node = n.node then { x with check := n.check } else x) = x := if_neg hx
      rw [e1, ih]

theorem passingNodes_applyRegisterNode (st : FSMState) (n : Node) (fid : Int) (h : n.node = fid) :
    passingNodes (applyRegisterNode st n).nodes fid = passingNodes st.nodes fid := by
  unfold applyRegisterNode
  split
  · exact passingNodes_map_set st.nodes n fid h
  · show passingNodes (st.nodes ++ [n]) fid = passingNodes st.nodes fid
    unfold passingNodes
    rw [List.filter_append]
    have : List.filter (fun x => x.check.status = HealthPassing && decide (x.node ≠ fid)) [n] = [] := by
      simp [h]
    rw [this, List.append_nil]

theorem failoverAssign_mem (env : RaftEnv) (fid : Int) (passing : List Node)
    (choose : Nat → Nat) (hpass : passing ≠ [])
    (hok : ∀ k, env.applyOk k = true) :
    ∀ ps i st, ∀ p ∈ ps, ∃ q,
      Action.registerPartition q ∈ (failoverAssign env fid passing choose i st ps).2.1 ∧
      q.topic = p.topic ∧ q.partition = p.partition ∧
      q.leader ∈ passing.map (fun n => n.node) ∧
      q.ar = p.ar.filter (fun r => r ≠ fid) ∧
      q.isr = p.isr.filter (fun r => r ≠ fid) := by
  intro ps
  induction ps with
  | nil => intro i st p hp; cases hp
  | cons hd tl ih =>
    intro i st p hp
    have hlen : ¬ passing.length = 0 := by
      simpa [List.length_eq_zero] using hpass
    unfold failoverAssign
    rw [dif_neg hlen, if_pos (hok (i + 1))]
    cases hp with
    | head =>
      refine ⟨_, List.mem_cons_self _ _, rfl, rfl, ?_, rfl, rfl⟩
      exact List.mem_map_of_mem _ (List.get_mem passing _ _)
    | tail _ htl =>
      obtain ⟨q, hq, hprops⟩ := ih (i + 1) _ p htl
      exact ⟨q, List.mem_cons_of_mem _ hq, hprops⟩

/-! ### C1: failover reassignment -/

/-- C1: when a failed broker member is reconciled, for every partition it
led the planner proposes a `RegisterPartition` whose leader is the id of a
node in the passing set (passing health check, failed broker excluded),
whose AR is the old AR with the failed id removed and whose ISR is the old
ISR with the failed id removed, both preserving order (provided the passing
set is non-empty and the raft proposals succeed). -/
theorem handleFailedMember_reassigns (cfg : Config) (env : RaftEnv) (st : FSMState)
    (m : Member) (meta : BrokerMeta) (choose : Nat → Nat)
    (hm : IsBroker m = some meta)
    (hok : ∀ k, env.applyOk k = true)
    (hpass : passingNodes st.nodes meta.id ≠ []) :
    ∀ p ∈ partitionsByLeader st meta.id, ∃ q,
      Action.registerPartition q ∈ (handleFailedMember cfg env st m choose).2.1 ∧
      q.topic = p.topic ∧ q.partition = p.partition ∧
      q.leader ∈ (passingNodes st.nodes meta.id).map (fun n => n.node) ∧
      q.ar = p.ar.filter (fun r => r ≠ meta.id) ∧
      q.isr = p.isr.filter (fun r => r ≠ meta.id) := by
  intro p hp
  unfold handleFailedMember
  rw [hm]
  simp only [hok 0, if_true]
  have hnode : (failedNodeReq meta m).node = meta.id := rfl
  have hparts : partitionsByLeader (applyRegisterNode st (failedNodeReq meta m)) meta.id
      = partitionsByLeader st meta.id :=
    partitionsByLeader_applyRegisterNode st (failedNodeReq meta m) meta.id
  have hpassing : passingNodes (applyRegisterNode st (failedNodeReq meta m)).nodes meta.id
      = passingNodes st.nodes meta.id :=
    passingNodes_applyRegisterNode st (failedNodeReq meta m) meta.id hnode
  rw [hparts, hpassing]
  obtain ⟨q, hq, hprops⟩ :=
    failoverAssign_mem env meta.id (passingNodes st.nodes meta.id) choose hpass hok
      (partitionsByLeader st meta.id) 0 (applyRegisterNode st (failedNodeReq meta m)) p hp
  refine ⟨q, ?_, hprops⟩
  cases hres : (failoverAssign env meta.id (passingNodes st.nodes meta.id) choose 0
      (applyRegisterNode st (failedNodeReq meta m)) (partitionsByLeader st meta.id)).2.2.2 with
  | ok =>
    simp only [hres]
    exact List.mem_cons_of_mem _ (List.mem_append_left _ hq)
  | err e =>
    simp only [hres]
    exact List.mem_cons_of_mem _ hq
  | panicked s =>
    simp only [hres]
    exact List.mem_cons_of_mem _ hq

/-- C1 witness: broker 2 fails while leading partition (t, 0) with
AR = ISR = [2, 3]; node 3 is passing, so some `RegisterPartition` with
leader 3, AR [3], ISR [3] is proposed. -/
theorem handleFailedMember_reassigns_witness :
    ∃ q,
      Action.registerPartition q ∈
        (handleFailedMember { id := 1, nodeName := "b1", bootstrap := false, devMode := false }
          { servers := [1, 2, 3], getConfigOk := true, applyOk := fun _ => true, addOk := true,
            removeOk := fun _ => true, netOk := fun _ => true, brokerByID := fun _ => some "addr" }
          { nodes := [ { node := 2, address := "a2", meta := [],
                         check := { node := "2", checkID := "c", name := "n",
                                    status := "passing", output := "" } },
                       { node := 3, address := "a3", meta := [],
                         check := { node := "3", checkID := "c", name := "n",
                                    status := "passing", output := "" } } ],
            partitions := [ { topic := "t", id := 0, partition := 0, leader := 2,
                              ar := [2, 3], isr := [2, 3] } ] }
          { name := "b2", status := .failed,
            tags := [("id","2"),("raft_addr","r2"),("serf_lan_addr","s2"),("broker_addr","a2")] }
          (fun _ => 0)).2.1 ∧
      q.topic = "t" ∧ q.partition = 0 ∧
      q.leader ∈ (passingNodes
          [ { node := 2, address := "a2", meta := [],
              check := { node := "2", checkID := "c", name := "n",
                         status := "passing", output := "" } },
            { node := 3, address := "a3", meta := [],
              check := { node := "3", checkID := "c", name := "n",
                         status := "passing", output := "" } } ] 2).map (fun n => n.node) ∧
      q.ar = [2, 3].filter (fun r => r ≠ (2 : Int)) ∧
      q.isr = [2, 3].filter (fun r => r ≠ (2 : Int)) :=
  handleFailedMember_reassigns _ _ _ _
    { id := 2, name := "b2", brokerAddr := "a2", raftAddr := "r2",
      serfLANAddr := "s2", bootstrap := false, nonVoter := false }
    (fun _ => 0) (by decide) (fun _ => rfl) (by decide)
    { topic := "t", id := 0, partition := 0, leader := 2, ar := [2, 3], isr := [2, 3] }
    (by decide)

/-! ### C2: empty passing set -/

/-- C2 counterexample: broker 2 fails while leading partition (t, 0) and no
other node is passing.  `handleFailedMember` does not return an error: it
panics (`rand.Intn` is called with a non-positive argument), so the claim
that the planner returns an error and that no error terminates the process
is false on the code. -/
theorem handleFailedMember_empty_passing_cex :
    (handleFailedMember { id := 1, nodeName := "b1", bootstrap := false, devMode := false }
        { servers := [1, 2], getConfigOk := true, applyOk := fun _ => true, addOk := true,
          removeOk := fun _ => true, netOk := fun _ => true, brokerByID := fun _ => some "addr" }
        { nodes := [ { node := 2, address := "a2", meta := [],
                       check := { node := "2", checkID := "c", name := "n",
                                  status := "passing", output := "" } } ],
          partitions := [ { topic := "t", id := 0, partition := 0, leader := 2,
                            ar := [2, 3], isr := [2, 3] } ] }
        { name := "b2", status := .failed,
          tags := [("id","2"),("raft_addr","r2"),("serf_lan_addr","s2"),("broker_addr","a2")] }
        (fun _ => 0)).2.2 = GoResult.panicked "invalid argument to Intn" := by
  decide

/-- C2 (amended): when a failed broker member leads at least one partition
and the passing set is empty, the failover planner proposes no
`RegisterPartition` and sends no LeaderAndISR RPC, but it does not return
an error: it panics at the random leader selection (`rand.Intn` with a
non-positive argument), and the panic propagates. -/
theorem handleFailedMember_empty_passing (cfg : Config) (env : RaftEnv) (st : FSMState)
    (m : Member) (meta : BrokerMeta) (choose : Nat → Nat)
    (hm : IsBroker m = some meta)
    (h0 : env.applyOk 0 = true)
    (hpass : passingNodes st.nodes meta.id = [])
    (hparts : partitionsByLeader st meta.id ≠ []) :
    (handleFailedMember cfg env st m choose).2.2 = .panicked "invalid argument to Intn" ∧
    (∀ q, Action.registerPartition q ∉ (handleFailedMember cfg env st m choose).2.1) ∧
    (∀ i a r, Action.sendLeaderAndISR i a r ∉ (handleFailedMember cfg env st m choose).2.1) := by
  have hnode : (failedNodeReq meta m).node = meta.id := rfl
  have hparts1 : partitionsByLeader (applyRegisterNode st (failedNodeReq meta m)) meta.id
      = partitionsByLeader st meta.id :=
    partitionsByLeader_applyRegisterNode st (failedNodeReq meta m) meta.id
  have hpass1 : passingNodes (applyRegisterNode st (failedNodeReq meta m)).nodes meta.id = [] := by
    rw [passingNodes_applyRegisterNode st (failedNodeReq meta m) meta.id hnode, hpass]
  have hassign : failoverAssign env meta.id
      (passingNodes (applyRegisterNode st (failedNodeReq meta m)).nodes meta.id) choose 0
      (applyRegisterNode st (failedNodeReq meta m))
      (partitionsByLeader (applyRegisterNode st (failedNodeReq meta m)) meta.id) =
      (applyRegisterNode st (failedNodeReq meta m), [], [], .panicked "invalid argument to Intn") := by
    rw [hparts1, hpass1]
    cases hps : partitionsByLeader st meta.id with
    | nil => exact absurd hps hparts
    | cons p ps =>
      unfold failoverAssign
      simp
  unfold handleFailedMember
  rw [hm]
  simp only [h0, if_true]
  rw [hassign]
  refine ⟨rfl, ?_, ?_⟩
  · intro q hq
    simp at hq
  · intro i a r hr
    simp at hr

/-- C2 witness: at a concrete failed broker leading one partition with an
empty passing set, the amended behaviour is exhibited: a panic and no
`RegisterPartition` proposal for the reassigned record. -/
theorem handleFailedMember_empty_passing_witness :
    (handleFailedMember { id := 1, nodeName := "b1", bootstrap := false, devMode := false }
        { servers := [1, 2], getConfigOk := true, applyOk := fun _ => true, addOk := true,
          removeOk := fun _ => true, netOk := fun _ => true, brokerByID := fun _ => none }
        { nodes := [], partitions := [ { topic := "t", id := 0, partition := 0, leader := 2,
                                         ar := [2, 3], isr := [2, 3] } ] }
        { name := "b2", status := .failed,
          tags := [("id","2"),("raft_addr","r2"),("serf_lan_addr","s2"),("broker_addr","a2")] }
        (fun _ => 0)).2.2 = GoResult.panicked "invalid argument to Intn" ∧
    Action.registerPartition { topic := "t", id := 0, partition := 0, leader := 3,
                               ar := [3], isr := [3] } ∉
      (handleFailedMember { id := 1, nodeName := "b1", bootstrap := false, devMode := false }
        { servers := [1, 2], getConfigOk := true, applyOk := fun _ => true, addOk := true,
          removeOk := fun _ => true, netOk := fun _ => true, brokerByID := fun _ => none }
        { nodes := [], partitions := [ { topic := "t", id := 0, partition := 0, leader := 2,
                                         ar := [2, 3], isr := [2, 3] } ] }
        { name := "b2", status := .failed,
          tags := [("id","2"),("raft_addr","r2"),("serf_lan_addr","s2"),("broker_addr","a2")] }
        (fun _ => 0)).2.1 :=
  ⟨(handleFailedMember_empty_passing _ _ _ _
      { id := 2, name := "b2", brokerAddr := "a2", raftAddr := "r2",
        serfLANAddr := "s2", bootstrap := false, nonVoter := false }
      (fun _ => 0) (by decide) rfl (by decide) (by decide)).1,
    (handleFailedMember_empty_passing _ _ _ _
      { id := 2, name := "b2", brokerAddr := "a2", raftAddr := "r2",
        serfLANAddr := "s2", bootstrap := false, nonVoter := false }
      (fun _ => 0) (by decide) rfl (by decide) (by decide)).2.1
      { topic := "t", id := 0, partition := 0, leader := 3, ar := [3], isr := [3] }⟩

/-! ### C3: LeaderAndISR payload -/

/-- C3: evaluation at the failing input.  Broker 2 fails while leading
partition (t, 0) with AR = ISR = [2, 3] and node 3 passing.  The proposed
`RegisterPartition` carries the updated record (leader 3, AR [3], ISR [3]),
but the `PartitionState` sent in the LeaderAndISR request carries the
pre-failover values (leader 2, ISR [2, 3], replicas [2, 3]), refuting the
claim that the request payload equals the updated record.  The request's
controller id is this broker's own id (1), as the claim states. -/
theorem leaderAndISR_carries_old_values :
    Action.registerPartition { topic := "t", id := 0, partition := 0, leader := 3,
                               ar := [3], isr := [3] } ∈
      (handleFailedMember { id := 1, nodeName := "b1", bootstrap := false, devMode := false }
        { servers := [1, 2, 3], getConfigOk := true, applyOk := fun _ => true, addOk := true,
          removeOk := fun _ => true, netOk := fun _ => true, brokerByID := fun _ => some "addr" }
        { nodes := [ { node := 2, address := "a2", meta := [],
                       check := { node := "2", checkID := "c", name := "n",
                                  status := "passing", output := "" } },
                     { node := 3, address := "a3", meta := [],
                       check := { node := "3", checkID := "c", name := "n",
                                  status := "passing", output := "" } } ],
          partitions := [ { topic := "t", id := 0, partition := 0, leader := 2,
                            ar := [2, 3], isr := [2, 3] } ] }
        { name := "b2", status := .failed,
          tags := [("id","2"),("raft_addr","r2"),("serf_lan_addr","s2"),("broker_addr","a2")] }
        (fun _ => 0)).2.1 ∧
    Action.sendLeaderAndISR 3 "addr"
        { controllerID := 1,
          partitionStates := [ { topic := "t", partition := 0, leader := 2,
                                 isr := [2, 3], replicas := [2, 3] } ] } ∈
      (handleFailedMember { id := 1, nodeName := "b1", bootstrap := false, devMode := false }
        { servers := [1, 2, 3], getConfigOk := true, applyOk := fun _ => true, addOk := true,
          removeOk := fun _ => true, netOk := fun _ => true, brokerByID := fun _ => some "addr" }
        { nodes := [ { node := 2, address := "a2", meta := [],
                       check := { node := "2", checkID := "c", name := "n",
                                  status := "passing", output := "" } },
                     { node := 3, address := "a3", meta := [],
                       check := { node := "3", checkID := "c", name := "n",
                                  status := "passing", output := "" } } ],
          partitions := [ { topic := "t", id := 0, partition := 0, leader := 2,
                            ar := [2, 3], isr := [2, 3] } ] }
        { name := "b2", status := .failed,
          tags := [("id","2"),("raft_addr","r2"),("serf_lan_addr","s2"),("broker_addr","a2")] }
        (fun _ => 0)).2.1 := by
  decide

/-! ### C4: alive members -/

/-- C4 counterexample: an alive member with no broker tags.  The Go code
skips `joinCluster` but then evaluates `b.ID.Int32()` on the nil broker
metadata pointer, so `handleAliveMember` does not complete without fault:
it panics with a nil-pointer dereference before performing any action. -/
theorem handleAliveMember_nonbroker_cex :
    handleAliveMember { id := 1, nodeName := "b1", bootstrap := false, devMode := false }
        { servers := [], getConfigOk := true, applyOk := fun _ => true, addOk := true,
          removeOk := fun _ => true, netOk := fun _ => true, brokerByID := fun _ => none }
        { nodes := [], partitions := [] } []
        { name := "x", status := .alive, tags := [] } =
      ({ nodes := [], partitions := [] }, [],
        .panicked "invalid memory address or nil pointer dereference") := by
  decide

/-- C4 (amended): for every alive member that carries broker tags,
`handleAliveMember` completes without panicking; `joinCluster` is called
and its error, if any, is returned; otherwise, if a node record for the
member's id exists in the FSM the call is a no-op returning no error, and
if none exists a `RegisterNode` with a passing health check is proposed.
(For an alive member without broker tags the handler panics on a nil
pointer dereference instead — see the counterexample.) -/
theorem handleAliveMember_broker_eq (cfg : Config) (env : RaftEnv) (st : FSMState)
    (lan : List Member) (m : Member) (b : BrokerMeta)
    (hm : IsBroker m = some b) :
    handleAliveMember cfg env st lan m =
      (match (joinCluster cfg env lan m b).2 with
       | .ok =>
         match getNode st b.id with
         | some _ => (st, (joinCluster cfg env lan m b).1, .ok)
         | none =>
           if env.applyOk 0 = true then
             (applyRegisterNode st (aliveNodeReq b),
               (joinCluster cfg env lan m b).1 ++ [Action.registerNode (aliveNodeReq b)], .ok)
           else
             (st, (joinCluster cfg env lan m b).1 ++ [Action.registerNode (aliveNodeReq b)],
               .err "apply failed")
       | e => (st, (joinCluster cfg env lan m b).1, e)) := by
  unfold handleAliveMember
  rw [hm]

theorem handleAliveMember_broker_spec (cfg : Config) (env : RaftEnv) (st : FSMState)
    (lan : List Member) (m : Member) (b : BrokerMeta)
    (hm : IsBroker m = some b) :
    ((handleAliveMember cfg env st lan m).2.2.isPanic = false) ∧
    ((joinCluster cfg env lan m b).2 = .ok → getNode st b.id ≠ none →
        handleAliveMember cfg env st lan m = (st, (joinCluster cfg env lan m b).1, .ok)) ∧
    ((joinCluster cfg env lan m b).2 = .ok → getNode st b.id = none →
        (handleAliveMember cfg env st lan m).2.1 =
          (joinCluster cfg env lan m b).1 ++ [Action.registerNode (aliveNodeReq b)] ∧
        (aliveNodeReq b).check.status = HealthPassing ∧
        (env.applyOk 0 = true → (handleAliveMember cfg env st lan m).2.2 = .ok)) ∧
    (∀ e, (joinCluster cfg env lan m b).2 = .err e →
        handleAliveMember cfg env st lan m = (st, (joinCluster cfg env lan m b).1, .err e)) := by
  rw [handleAliveMember_broker_eq cfg env st lan m b hm]
  refine ⟨?_, ?_, ?_, ?_⟩
  · cases hj : (joinCluster cfg env lan m b).2 with
    | ok =>
      cases hg : getNode st b.id with
      | some nd => simp [GoResult.isPanic]
      | none =>
        by_cases ha : env.applyOk 0 <;> simp [ha, GoResult.isPanic]
    | err e =>
      simp [GoResult.isPanic]
    | panicked s =>
      have := joinCluster_no_panic cfg env lan m b
      rw [hj] at this
      simp [GoResult.isPanic] at this
  · intro hj hg
    rw [hj]
    cases hgn : getNode st b.id with
    | some nd => rfl
    | none => exact absurd hgn hg
  · intro hj hg
    rw [hj, hg]
    refine ⟨?_, rfl, ?_⟩
    · by_cases ha : env.applyOk 0 <;> simp [ha]
    · intro ha
      simp [ha]
  · intro e hj
    rw [hj]

/-- C4 witness: an alive broker member (id 2) whose node record already
exists in the FSM: the handler returns no error, performing only the
join-cluster voter addition. -/
theorem handleAliveMember_broker_spec_witness :
    handleAliveMember { id := 1, nodeName := "b1", bootstrap := false, devMode := false }
        { servers := [1, 2, 3], getConfigOk := true, applyOk := fun _ => true, addOk := true,
          removeOk := fun _ => true, netOk := fun _ => true, brokerByID := fun _ => none }
        { nodes := [ { node := 2, address := "a2", meta := [],
                       check := { node := "2", checkID := "c", name := "n",
                                  status := "passing", output := "" } } ],
          partitions := [] }
        []
        { name := "b2", status := .alive,
          tags := [("id","2"),("raft_addr","r2"),("serf_lan_addr","s2"),("broker_addr","a2")] } =
      ({ nodes := [ { node := 2, address := "a2", meta := [],
                      check := { node := "2", checkID := "c", name := "n",
                                 status := "passing", output := "" } } ],
         partitions := [] },
        [Action.addVoter 2 "r2"], .ok) :=
  (handleAliveMember_broker_spec _ _ _ _ _
      { id := 2, name := "b2", brokerAddr := "a2", raftAddr := "r2",
        serfLANAddr := "s2", bootstrap := false, nonVoter := false }
      (by decide)).2.1 (by decide) (by decide)

/-! ### C7: reconcile error policy -/

theorem reconcileMember_never_err (cfg : Config) (env : RaftEnv) (lan : List Member)
    (choose : Nat → Nat) (st : FSMState) (m : Member) :
    (reconcileMember cfg env lan choose st m).2.2 = .ok ∨
      ∃ s, (reconcileMember cfg env lan choose st m).2.2 = .panicked s := by
  unfold reconcileMember
  rcases hsh : statusHandler cfg env lan choose st m with ⟨st', acts, res⟩
  cases res with
  | ok => left; rfl
  | err e => left; rfl
  | panicked s => right; exact ⟨s, rfl⟩

/-- C7: `reconcileMember` returns nil even when the status-specific handler
returns an error (the error is only logged), and consequently, whenever no
handler panics, `reconcile` processes every member of the batch in order
and returns nil, never aborting the batch because a member's reconciliation
failed. -/
theorem reconcile_swallows_member_errors :
    (∀ (cfg : Config) (env : RaftEnv) (lan : List Member) (choose : Nat → Nat)
        (st : FSMState) (m : Member) (e : String),
      (statusHandler cfg env lan choose st m).2.2 = .err e →
      (reconcileMember cfg env lan choose st m).2.2 = .ok) ∧
    (∀ (cfg : Config) (envAt : Nat → RaftEnv) (chooseAt : Nat → Nat → Nat)
        (lan : List Member) (k : Nat) (st : FSMState) (ms : List Member),
      (reconcileFrom cfg envAt chooseAt lan k st ms).2.2.isPanic = false →
      (reconcileFrom cfg envAt chooseAt lan k st ms).2.2 = .ok ∧
      (reconcileFrom cfg envAt chooseAt lan k st ms).2.1.map Prod.fst = ms) := by
  constructor
  · intro cfg env lan choose st m e he
    unfold reconcileMember
    rcases hsh : statusHandler cfg env lan choose st m with ⟨st', acts, res⟩
    cases res with
    | ok => rfl
    | err e2 => rfl
    | panicked s => rw [hsh] at he; simp at he
  · intro cfg envAt chooseAt lan k st ms
    induction ms generalizing k st with
    | nil => intro _; exact ⟨rfl, rfl⟩
    | cons m rest ih =>
      intro hnp
      unfold reconcileFrom at hnp ⊢
      have hne := reconcileMember_never_err cfg (envAt k) lan (chooseAt k) st m
      rcases hrm : reconcileMember cfg (envAt k) lan (chooseAt k) st m with ⟨st', acts, res⟩
      rw [hrm] at hnp hne
      cases res with
      | ok =>
        dsimp only at hnp ⊢
        have h2 := ih (k + 1) st' hnp
        exact ⟨h2.1, by rw [List.map_cons, h2.2]⟩
      | err e => simp at hne
      | panicked s => simp [GoResult.isPanic] at hnp

/-- C7 witness: a batch of one alive broker member whose handler fails
(GetConfiguration fails, so `joinCluster` and thus `handleAliveMember`
return an error): `reconcileMember` still returns nil and the batch is
processed in full. -/
theorem reconcile_swallows_member_errors_witness :
    (reconcileMember { id := 1, nodeName := "b1", bootstrap := false, devMode := false }
        { servers := [], getConfigOk := false, applyOk := fun _ => true, addOk := true,
          removeOk := fun _ => true, netOk := fun _ => true, brokerByID := fun _ => none }
        [ { name := "b2", status := .alive,
            tags := [("id","2"),("raft_addr","r2"),("serf_lan_addr","s2"),("broker_addr","a2")] } ]
        (fun _ => 0) { nodes := [], partitions := [] }
        { name := "b2", status := .alive,
          tags := [("id","2"),("raft_addr","r2"),("serf_lan_addr","s2"),("broker_addr","a2")] }).2.2 =
      GoResult.ok ∧
    (reconcileFrom { id := 1, nodeName := "b1", bootstrap := false, devMode := false }
        (fun _ => { servers := [], getConfigOk := false, applyOk := fun _ => true, addOk := true,
                    removeOk := fun _ => true, netOk := fun _ => true, brokerByID := fun _ => none })
        (fun _ _ => 0)
        [ { name := "b2", status := .alive,
            tags := [("id","2"),("raft_addr","r2"),("serf_lan_addr","s2"),("broker_addr","a2")] } ]
        0 { nodes := [], partitions := [] }
        [ { name := "b2", status := .alive,
            tags := [("id","2"),("raft_addr","r2"),("serf_lan_addr","s2"),("broker_addr","a2")] } ]).2.1.map
        Prod.fst =
      [ { name := "b2", status := .alive,
          tags := [("id","2"),("raft_addr","r2"),("serf_lan_addr","s2"),("broker_addr","a2")] } ] :=
  ⟨reconcile_swallows_member_errors.1 _ _ _ _ _ _ "failed to get raft configuration" (by decide),
    (reconcile_swallows_member_errors.2 _ _ _ _ 0 _ _ (by decide)).2⟩

/-! ### C5: read-readiness discipline of the leader loop -/

theorem waitLoop_srok (inp : LoopInput) :
    ∀ (w : List WaitEv) (est canM : Bool) (k : Nat) (prev : Option LoopAct),
      readySetAfterBarrier prev (waitLoop inp est canM k w).1 = true := by
  intro w
  induction w with
  | nil => intro est canM k prev; rfl
  | cons ev rest ih =>
    intro est canM k prev
    cases ev with
    | stop => cases est <;> simp [waitLoop, readySetAfterBarrier]
    | shutdown => cases est <;> simp [waitLoop, readySetAfterBarrier]
    | tick =>
      by_cases hb : inp.barrier (k + 1) = true <;> cases est <;>
        simp [waitLoop, reconcilePass, hb, readySetAfterBarrier, ih]
    | memberEv =>
      cases canM <;> simp [waitLoop, readySetAfterBarrier, ih]

theorem waitLoop_count (inp : LoopInput) :
    ∀ (w : List WaitEv) (est canM : Bool) (k : Nat),
      ((waitLoop inp est canM k w).1.count LoopAct.setReady) ≤ (if est then 0 else 1) := by
  intro w
  induction w with
  | nil => intro est canM k; cases est <;> simp [waitLoop]
  | cons ev rest ih =>
    intro est canM k
    cases ev with
    | stop => cases est <;> simp [waitLoop]
    | shutdown => cases est <;> simp [waitLoop]
    | tick =>
      by_cases hb : inp.barrier (k + 1) = true
      · cases est
        · have h := ih true (inp.reconcileRes (k + 1)) (k + 1)
          simp [waitLoop, reconcilePass, hb, List.count_append, List.count_cons] at h ⊢
          omega
        · have h := ih true (inp.reconcileRes (k + 1)) (k + 1)
          simp [waitLoop, reconcilePass, hb, List.count_append, List.count_cons] at h ⊢
          omega
      · cases est
        · have h := ih false false (k + 1)
          simp [waitLoop, reconcilePass, hb, List.count_append, List.count_cons] at h ⊢
          omega
        · have h := ih true false (k + 1)
          simp [waitLoop, reconcilePass, hb, List.count_append, List.count_cons] at h ⊢
          omega
    | memberEv =>
      cases canM
      · cases est
        · have h := ih false false k
          simp [waitLoop] at h ⊢
          omega
        · have h := ih true false k
          simp [waitLoop] at h ⊢
          omega
      · cases est
        · have h := ih false true k
          simp [waitLoop, List.count_cons] at h ⊢
          omega
        · have h := ih true true k
          simp [waitLoop, List.count_cons] at h ⊢
          omega

theorem waitLoop_reset (inp : LoopInput) :
    ∀ (w : List WaitEv) (est canM : Bool) (k : Nat),
      (waitLoop inp est canM k w).2 = true →
      (est = true ∨ LoopAct.setReady ∈ (waitLoop inp est canM k w).1) →
      LoopAct.resetReady ∈ (waitLoop inp est canM k w).1 := by
  intro w
  induction w with
  | nil => intro est canM k hex _; simp [waitLoop] at hex
  | cons ev rest ih =>
    intro est canM k hex hset
    cases ev with
    | stop =>
      cases est
      · rcases hset with h | h
        · exact absurd h (by simp)
        · simp [waitLoop] at h
      · simp [waitLoop]
    | shutdown =>
      cases est
      · rcases hset with h | h
        · exact absurd h (by simp)
        · simp [waitLoop] at h
      · simp [waitLoop]
    | tick =>
      by_cases hb : inp.barrier (k + 1) = true
      · cases est
        · simp only [waitLoop, reconcilePass, hb] at hex hset ⊢
          have h := ih true (inp.reconcileRes (k + 1)) (k + 1) (by simpa using hex) (Or.inl rfl)
          simp [h]
        · simp only [waitLoop, reconcilePass, hb] at hex hset ⊢
          have h := ih true (inp.reconcileRes (k + 1)) (k + 1) (by simpa using hex) (Or.inl rfl)
          simp [h]
      · cases est
        · simp only [waitLoop, reconcilePass, hb] at hex hset ⊢
          have hs2 : LoopAct.setReady ∈ (waitLoop inp false false (k + 1) rest).1 := by
            rcases hset with h | h
            · exact absurd h (by simp)
            · simpa using h
          have h := ih false false (k + 1) (by simpa using hex) (Or.inr hs2)
          simp [h]
        · simp only [waitLoop, reconcilePass, hb] at hex hset ⊢
          have h := ih true false (k + 1) (by simpa using hex) (Or.inl rfl)
          simp [h]
    | memberEv =>
      cases canM
      · simp only [waitLoop] at hex hset ⊢
        exact ih est false k hex hset
      · simp only [waitLoop] at hex hset ⊢
        have hset2 : est = true ∨ LoopAct.setReady ∈ (waitLoop inp est true k rest).1 := by
          rcases hset with h | h
          · exact Or.inl h
          · rcases List.mem_cons.mp h with h2 | h2
            · exact absurd h2 (by simp)
            · exact Or.inr h2
        have h := ih est true k hex hset2
        simp [h]

/-- C5: in every execution of the leader loop, the ready flag is set only
immediately after a `Barrier` call with the 2-minute write timeout returns
success; it is set at most once per loop entry; and if the loop exits after
having set it, the deferred revoke resets it on that exit path. -/
theorem leaderLoop_ready_discipline (inp : LoopInput) (waits : List WaitEv) :
    readySetAfterBarrier none (leaderLoop inp waits).1 = true ∧
    (leaderLoop inp waits).1.count LoopAct.setReady ≤ 1 ∧
    ((leaderLoop inp waits).2 = true → LoopAct.setReady ∈ (leaderLoop inp waits).1 →
      LoopAct.resetReady ∈ (leaderLoop inp waits).1) := by
  unfold leaderLoop
  by_cases hb : inp.barrier 0 = true
  · refine ⟨?_, ?_, ?_⟩
    · simp [reconcilePass, hb, readySetAfterBarrier, waitLoop_srok]
    · have h := waitLoop_count inp waits true (inp.reconcileRes 0) 0
      simp [reconcilePass, hb, List.count_append, List.count_cons] at h ⊢
      omega
    · intro hex hst
      simp only [reconcilePass, hb] at hex ⊢
      have h := waitLoop_reset inp waits true (inp.reconcileRes 0) 0 (by simpa using hex) (Or.inl rfl)
      simp [h]
  · refine ⟨?_, ?_, ?_⟩
    · simp [reconcilePass, hb, readySetAfterBarrier, waitLoop_srok]
    · have h := waitLoop_count inp waits false false 0
      simp [reconcilePass, hb, List.count_append, List.count_cons] at h ⊢
      omega
    · intro hex hst
      simp only [reconcilePass, hb] at hex hst ⊢
      have hs2 : LoopAct.setReady ∈ (waitLoop inp false false 0 waits).1 := by
        simpa using hst
      have h := waitLoop_reset inp waits false false 0 (by simpa using hex) (Or.inr hs2)
      simp [h]

/-- C5 witness: a leadership episode whose barrier succeeds and that is then
stopped: the flag is set once and reset on exit. -/
theorem leaderLoop_ready_discipline_witness :
    LoopAct.resetReady ∈
      (leaderLoop { barrier := fun _ => true, reconcileRes := fun _ => true } [WaitEv.stop]).1 :=
  (leaderLoop_ready_discipline { barrier := fun _ => true, reconcileRes := fun _ => true }
      [WaitEv.stop]).2.2 (by decide) (by decide)

end Jocko
